import Mathlib

/-!
Shallow embedding of the analysis core of the `uk-wind-weather-impact`
repository:

* `src/wind_impact_analyzer.py` — `WindImpactAnalyzer.analyze_current_conditions`
  (the per-sample classifier), `analyze_forecast` (the event extractor),
  `get_overall_status` (the status aggregator) and `_estimate_capacity_factor`.
* `src/weather_front_tracker.py` — `WeatherFrontTracker.detect_pressure_systems`
  and `detect_fronts`.

Numeric fields are modelled as rationals (the Python code computes with
floats, but every constant and every arithmetic operation used by the
claims is exact decimal arithmetic).  Timestamps are modelled as rational
numbers measured in hours, so that Python's
`(t2 - t1).total_seconds() / 3600` becomes plain subtraction.  String
labels (`status`, `color`, issue `type` and `severity`) are kept as the
exact strings of the source.  The human-readable `description` strings
(pure f-string formatting) are not modelled; no claim inspects them.
-/

/-! ## Data model: `wind_impact_analyzer.py` -/

/-- Operational thresholds of `WindImpactAnalyzer` (class constants). -/
def CUT_IN_SPEED : ℚ := 3.5

/-- `RATED_SPEED = 12.5  # m/s` -/
def RATED_SPEED : ℚ := 12.5

/-- `CUT_OUT_SPEED = 25.0  # m/s` -/
def CUT_OUT_SPEED : ℚ := 25.0

/-- `ICING_TEMP = 0.0  # °C` -/
def ICING_TEMP : ℚ := 0.0

/-- `ICING_HUMIDITY = 80  # %` -/
def ICING_HUMIDITY : ℚ := 80

/-- One weather sample, as consumed by `analyze_current_conditions`:
the dict keys `timestamp`, `wind_speed_ms`, `wind_gust_ms`,
`temperature_c`, `humidity_pct`.  The timestamp is in hours. -/
structure Weather where
  timestamp : ℚ
  wind_speed_ms : ℚ
  wind_gust_ms : ℚ
  temperature_c : ℚ
  humidity_pct : ℚ
deriving DecidableEq

/-- One entry of the `issues` list built by `analyze_current_conditions`.
All issue dicts carry `type` and `severity`; the numeric payload keys
(`wind_speed`, `capacity_factor`, `temperature`, `humidity`) are present
only on some issue kinds, hence `Option`.  The `description` f-string is
not modelled. -/
structure Issue where
  type : String
  severity : String
  wind_speed : Option ℚ
  capacity_factor : Option ℚ
  temperature : Option ℚ
  humidity : Option ℚ
deriving DecidableEq

/-- The status dict returned by `analyze_current_conditions`. -/
structure CondStatus where
  timestamp : ℚ
  operational : Bool
  capacity_factor : ℚ
  status : String
  color : String
  issues : List Issue
deriving DecidableEq

/-- `WindImpactAnalyzer._estimate_capacity_factor`. -/
def estimateCapacityFactor (wind_speed : ℚ) : ℚ :=
  if wind_speed < CUT_IN_SPEED then 0.0
  else if wind_speed ≥ RATED_SPEED then 1.0
  else ((wind_speed - CUT_IN_SPEED) / (RATED_SPEED - CUT_IN_SPEED)) ^ 3

/-- The `cut_out` issue dict appended in the cut-out branch. -/
def cutOutIssue (wind_speed : ℚ) : Issue :=
  ⟨"cut_out", "critical", some wind_speed, none, none, none⟩

/-- The `cut_in` issue dict appended in the idle branch. -/
def cutInIssue (wind_speed : ℚ) : Issue :=
  ⟨"cut_in", "low", some wind_speed, none, none, none⟩

/-- The `sub_optimal` issue dict appended in the sub-optimal branch. -/
def subOptimalIssue (wind_speed cf : ℚ) : Issue :=
  ⟨"sub_optimal", "low", some wind_speed, some cf, none, none⟩

/-- The `icing` issue dict appended by the icing check. -/
def icingIssue (temp humidity : ℚ) : Issue :=
  ⟨"icing", "medium", none, none, some temp, some humidity⟩

/-- `WindImpactAnalyzer.analyze_current_conditions`: starts from the
`normal`/`green` status dict, runs the mutually exclusive
cut-out / cut-in / sub-optimal branches (in that order, as an
`if`/`elif`/`elif`), then the independent icing check, which appends an
`icing` issue and escalates `color`/`status` only when the color is
still `green`. -/
def analyzeCurrentConditions (w : Weather) : CondStatus :=
  let base : CondStatus :=
    { timestamp := w.timestamp
      operational := true
      capacity_factor := 1.0
      status := "normal"
      color := "green"
      issues := [] }
  let s1 :=
    if w.wind_gust_ms ≥ CUT_OUT_SPEED ∨ w.wind_speed_ms ≥ CUT_OUT_SPEED then
      { base with
          operational := false
          capacity_factor := 0.0
          status := "shutdown"
          color := "red"
          issues := [cutOutIssue w.wind_speed_ms] }
    else if w.wind_speed_ms < CUT_IN_SPEED then
      { base with
          operational := true
          capacity_factor := 0.0
          status := "idle"
          color := "yellow"
          issues := [cutInIssue w.wind_speed_ms] }
    else if w.wind_speed_ms < RATED_SPEED then
      let cf := estimateCapacityFactor w.wind_speed_ms
      { base with
          capacity_factor := cf
          status := "sub_optimal"
          color := "yellow"
          issues := [subOptimalIssue w.wind_speed_ms cf] }
    else base
  if w.temperature_c ≤ ICING_TEMP ∧ w.humidity_pct ≥ ICING_HUMIDITY then
    let s2 := { s1 with issues := s1.issues ++ [icingIssue w.temperature_c w.humidity_pct] }
    if s2.color = "green" then { s2 with color := "orange", status := "icing_risk" } else s2
  else s1

/-- One impact event produced by `analyze_forecast`.  `end_time` and
`duration_hours` are `None` for an event still open at the end of the
forecast window.  Times are in hours, so `eta_hours` and
`duration_hours` are plain differences. -/
structure Event where
  type : String
  severity : String
  start_time : ℚ
  end_time : Option ℚ
  eta_hours : ℚ
  duration_hours : Option ℚ
  status : String
deriving DecidableEq

/-- The open-event accumulator of `analyze_forecast`: the
`event_start`, `event_type` and `event_severity` locals while
`in_event` is true. -/
structure OpenEvent where
  event_start : ℚ
  event_type : String
  event_severity : String
deriving DecidableEq

/-- The event dict appended when an open event is closed by an
issue-free hour with timestamp `endT`. -/
def closedEvent (current_time : ℚ) (oe : OpenEvent) (endT : ℚ) : Event :=
  { type := oe.event_type
    severity := oe.event_severity
    start_time := oe.event_start
    end_time := some endT
    eta_hours := max 0 (oe.event_start - current_time)
    duration_hours := some (endT - oe.event_start)
    status := if oe.event_start - current_time > 0 then "upcoming" else "current" }

/-- The event dict appended for an event that extends beyond the
forecast window. -/
def openEndedEvent (current_time : ℚ) (oe : OpenEvent) : Event :=
  { type := oe.event_type
    severity := oe.event_severity
    start_time := oe.event_start
    end_time := none
    eta_hours := max 0 (oe.event_start - current_time)
    duration_hours := none
    status := if oe.event_start - current_time > 0 then "upcoming" else "current" }

/-- The loop of `analyze_forecast`: `events` is the accumulator list,
`st` is `none` when `in_event` is false and carries the open-event
locals otherwise. -/
def analyzeForecastAux (current_time : ℚ) :
    List Weather → List Event → Option OpenEvent → List Event
  | [], events, none => events
  | [], events, some oe => events ++ [openEndedEvent current_time oe]
  | hour :: rest, events, none =>
    let hs := analyzeCurrentConditions hour
    match hs.issues with
    | [] => analyzeForecastAux current_time rest events none
    | iss :: _ =>
      analyzeForecastAux current_time rest events
        (some ⟨hour.timestamp, iss.type, iss.severity⟩)
  | hour :: rest, events, some oe =>
    let hs := analyzeCurrentConditions hour
    if hs.issues = [] then
      analyzeForecastAux current_time rest
        (events ++ [closedEvent current_time oe hour.timestamp]) none
    else
      analyzeForecastAux current_time rest events (some oe)

/-- `WindImpactAnalyzer.analyze_forecast` (the `current_time` default of
`datetime.now()` is I/O and is passed explicitly here). -/
def analyzeForecast (forecast : List Weather) (current_time : ℚ) : List Event :=
  analyzeForecastAux current_time forecast [] none

/-- The synthesized priority issue built inside `get_overall_status`
(its `description` f-string is not modelled). -/
def synthIssue (e : Event) : Issue :=
  ⟨e.type, e.severity, none, none, none, none⟩

/-- The dict returned by `get_overall_status`. -/
structure Overall where
  current : CondStatus
  upcoming_events : List Event
  priority_color : String
  priority_issue : Option Issue
deriving DecidableEq

/-- The scan loop of `get_overall_status`: the first `critical` event
with `eta_hours < 24` sets red and breaks; a `medium` event with
`eta_hours < 12` sets orange and overwrites the priority issue unless
the color is already red, and the scan continues. -/
def getOverallStatusAux : List Event → Overall → Overall
  | [], ov => ov
  | e :: rest, ov =>
    if e.severity = "critical" ∧ e.eta_hours < 24 then
      { ov with priority_color := "red", priority_issue := some (synthIssue e) }
    else if e.severity = "medium" ∧ e.eta_hours < 12 then
      getOverallStatusAux rest
        (if ov.priority_color ≠ "red" then
          { ov with priority_color := "orange", priority_issue := some (synthIssue e) }
         else ov)
    else getOverallStatusAux rest ov

/-- `WindImpactAnalyzer.get_overall_status`. -/
def getOverallStatus (current_status : CondStatus) (events : List Event) : Overall :=
  getOverallStatusAux events
    { current := current_status
      upcoming_events := events
      priority_color := current_status.color
      priority_issue := current_status.issues.head? }

/-! ## Data model: `weather_front_tracker.py` -/

/-- One grid point as built by `get_grid_weather` (the
`hourly_forecast` payload, unused by the detectors, is omitted;
`weather_code` is kept as an integer WMO code). -/
structure GridPoint where
  lat : ℚ
  lon : ℚ
  temperature : ℚ
  pressure : ℚ
  pressure_trend : ℚ
  wind_speed : ℚ
  wind_direction : ℚ
  weather_code : ℤ
deriving DecidableEq

/-- One detected pressure system (the `symbol` field is the constant
`'H'` or `'L'` determined by `type` and is not repeated here). -/
structure PressureSystem where
  type : String
  lat : ℚ
  lon : ℚ
  pressure : ℚ
deriving DecidableEq

/-- The `nearby` list comprehension of `detect_pressure_systems`:
all other points (dict inequality) within strictly 2 degrees of
latitude and strictly 2 degrees of longitude. -/
def nearbyPoints (grid : List GridPoint) (point : GridPoint) : List GridPoint :=
  grid.filter (fun p => |p.lat - point.lat| < 2 ∧ |p.lon - point.lon| < 2 ∧ p ≠ point)

/-- The loop body of `detect_pressure_systems` for one `point`:
skip when `nearby` is empty, report a `high` when the point's pressure
strictly exceeds every neighbour's and 1015 hPa, `elif` a `low` when it
is strictly below every neighbour's and below 1010 hPa. -/
def classifyPoint (grid : List GridPoint) (point : GridPoint) : List PressureSystem :=
  let nearby := nearbyPoints grid point
  if nearby = [] then []
  else if nearby.all (fun n => point.pressure > n.pressure) then
    if point.pressure > 1015 then [⟨"high", point.lat, point.lon, point.pressure⟩] else []
  else if nearby.all (fun n => point.pressure < n.pressure) then
    if point.pressure < 1010 then [⟨"low", point.lat, point.lon, point.pressure⟩] else []
  else []

/-- `WeatherFrontTracker.detect_pressure_systems`: returns `[]` for
fewer than 9 grid points, otherwise concatenates the per-point
classifications in grid order. -/
def detectPressureSystems (grid : List GridPoint) : List PressureSystem :=
  if grid.length < 9 then [] else (grid.map (classifyPoint grid)).flatten

/-- One detected front (`symbol` is determined by `type`; the float
`gradient` field, `temp_diff / sqrt(...)`, is irrational in general and
is characterised in the theorems instead of being stored). -/
structure Front where
  type : String
  lat : ℚ
  lon : ℚ
  color : String
  temp_diff : ℚ
deriving DecidableEq

/-- The loop body of `detect_fronts` for an adjacent sorted pair
`(p1, p2)`.  The source guards `distance > 0` and tests
`temp_diff / distance > 1.5` with `distance = sqrt(dlat² + dlon²)`;
since both sides are nonnegative this is equivalent to
`temp_diff² > (3/2)² ⬝ (dlat² + dlon²)`, which is the exact rational
form used here (proved equivalent to the square-root form in
`frontPair_spec`). -/
def frontPair (p1 p2 : GridPoint) : List Front :=
  let temp_diff := |p2.temperature - p1.temperature|
  let distSq := (p2.lat - p1.lat) ^ 2 + (p2.lon - p1.lon) ^ 2
  if 0 < distSq ∧ (3/2) ^ 2 * distSq < temp_diff ^ 2 then
    if p2.temperature < p1.temperature then
      [⟨"cold", (p1.lat + p2.lat) / 2, (p1.lon + p2.lon) / 2, "#0000FF", temp_diff⟩]
    else
      [⟨"warm", (p1.lat + p2.lat) / 2, (p1.lon + p2.lon) / 2, "#FF0000", temp_diff⟩]
  else []

/-- The scan of `detect_fronts` over adjacent pairs of the sorted list
(`for i in range(len(sorted_data) - 1)`). -/
def frontScan : List GridPoint → List Front
  | p1 :: p2 :: rest => frontPair p1 p2 ++ frontScan (p2 :: rest)
  | _ => []

/-- `sorted(grid_data, key=lambda x: x['lat'])`: a stable sort by
latitude, modelled by insertion sort (extensionally equal to any stable
sort by the same key). -/
def sortByLat (grid : List GridPoint) : List GridPoint :=
  List.insertionSort (fun a b => a.lat ≤ b.lat) grid

/-- `WeatherFrontTracker.detect_fronts`. -/
def detectFronts (grid : List GridPoint) : List Front :=
  frontScan (sortByLat grid)

/-! ## Helper predicates -/

/-- An issue produced by one of the three mutually exclusive wind
branches of the classifier. -/
def isWindBandIssue (i : Issue) : Bool :=
  i.type == "cut_out" || i.type == "cut_in" || i.type == "sub_optimal"

/-- An issue produced by the icing check. -/
def isIcingIssue (i : Issue) : Bool :=
  i.type == "icing"

/-! ## Theorems -/

/-- **C4.** Whenever the sustained wind speed or the gust is `≥ 25.0`,
the classifier returns `shutdown` / capacity 0 / non-operational /
`red`, with exactly one wind-band issue, namely the `cut_out` issue of
severity `critical`, placed first; the idle and sub-optimal branches
are excluded (no `cut_in` or `sub_optimal` issue appears). -/
theorem c4_cut_out_shutdown (w : Weather)
    (h : w.wind_speed_ms ≥ CUT_OUT_SPEED ∨ w.wind_gust_ms ≥ CUT_OUT_SPEED) :
    (analyzeCurrentConditions w).status = "shutdown" ∧
    (analyzeCurrentConditions w).capacity_factor = 0 ∧
    (analyzeCurrentConditions w).operational = false ∧
    (analyzeCurrentConditions w).color = "red" ∧
    (analyzeCurrentConditions w).issues.head? = some (cutOutIssue w.wind_speed_ms) ∧
    (analyzeCurrentConditions w).issues.filter isWindBandIssue = [cutOutIssue w.wind_speed_ms] ∧
    (cutOutIssue w.wind_speed_ms).severity = "critical" := by
  have hco : w.wind_gust_ms ≥ CUT_OUT_SPEED ∨ w.wind_speed_ms ≥ CUT_OUT_SPEED := h.symm
  unfold analyzeCurrentConditions
  simp only [if_pos hco]
  split_ifs <;>
    simp_all [cutOutIssue, icingIssue, isWindBandIssue, List.filter] <;>
    norm_num

/-- Witness for C4 at wind speed 30 m/s. -/
theorem c4_cut_out_shutdown_witness :
    (30 : ℚ) ≥ CUT_OUT_SPEED ∧
    ((analyzeCurrentConditions ⟨0, 30, 30, 10, 50⟩).status = "shutdown" ∧
     (analyzeCurrentConditions ⟨0, 30, 30, 10, 50⟩).capacity_factor = 0 ∧
     (analyzeCurrentConditions ⟨0, 30, 30, 10, 50⟩).operational = false ∧
     (analyzeCurrentConditions ⟨0, 30, 30, 10, 50⟩).color = "red" ∧
     (analyzeCurrentConditions ⟨0, 30, 30, 10, 50⟩).issues.head? = some (cutOutIssue 30) ∧
     (analyzeCurrentConditions ⟨0, 30, 30, 10, 50⟩).issues.filter isWindBandIssue
        = [cutOutIssue 30] ∧
     (cutOutIssue (30 : ℚ)).severity = "critical") :=
  ⟨by norm_num [CUT_OUT_SPEED],
   c4_cut_out_shutdown ⟨0, 30, 30, 10, 50⟩ (Or.inl (by norm_num [CUT_OUT_SPEED]))⟩

/-- **C5.** In the sub-optimal band (`3.5 ≤ speed < 12.5`, gust below
cut-out) the classifier returns `sub_optimal` / `yellow` with a
`sub_optimal` issue of severity `low` first in the list, and a capacity
factor of `((s − 3.5) / 9)³`; that formula is strictly increasing on
the band, is `0` at `s = 3.5`, and stays within `[0, 1]`. -/
theorem c5_sub_optimal_band (w : Weather)
    (h1 : CUT_IN_SPEED ≤ w.wind_speed_ms) (h2 : w.wind_speed_ms < RATED_SPEED)
    (h3 : w.wind_gust_ms < CUT_OUT_SPEED) :
    (analyzeCurrentConditions w).status = "sub_optimal" ∧
    (analyzeCurrentConditions w).color = "yellow" ∧
    (analyzeCurrentConditions w).issues.head? =
      some (subOptimalIssue w.wind_speed_ms (((w.wind_speed_ms - 3.5) / 9) ^ 3)) ∧
    (subOptimalIssue w.wind_speed_ms (((w.wind_speed_ms - 3.5) / 9) ^ 3)).severity = "low" ∧
    (analyzeCurrentConditions w).capacity_factor = ((w.wind_speed_ms - 3.5) / 9) ^ 3 ∧
    0 ≤ (analyzeCurrentConditions w).capacity_factor ∧
    (analyzeCurrentConditions w).capacity_factor ≤ 1 ∧
    (∀ s t : ℚ, CUT_IN_SPEED ≤ s → s < t → t < RATED_SPEED →
      estimateCapacityFactor s < estimateCapacityFactor t) ∧
    estimateCapacityFactor CUT_IN_SPEED = 0 := by
  have hrc : RATED_SPEED < CUT_OUT_SPEED := by norm_num [RATED_SPEED, CUT_OUT_SPEED]
  have hns : ¬(w.wind_gust_ms ≥ CUT_OUT_SPEED ∨ w.wind_speed_ms ≥ CUT_OUT_SPEED) := by
    push_neg
    exact ⟨lt_of_not_le fun hle => absurd h3 (not_lt.mpr hle), h2.trans hrc⟩
  have hni : ¬(w.wind_speed_ms < CUT_IN_SPEED) := not_lt.mpr h1
  have hcf : estimateCapacityFactor w.wind_speed_ms = ((w.wind_speed_ms - 3.5) / 9) ^ 3 := by
    unfold estimateCapacityFactor
    rw [if_neg hni, if_neg (not_le.mpr h2)]
    norm_num [CUT_IN_SPEED, RATED_SPEED]
  have hbase0 : (0 : ℚ) ≤ (w.wind_speed_ms - 3.5) / 9 := by
    have : (3.5 : ℚ) ≤ w.wind_speed_ms := by
      simpa [CUT_IN_SPEED] using h1
    have h9 : (0 : ℚ) ≤ 9 := by norm_num
    exact div_nonneg (by linarith) h9
  have hbase1 : (w.wind_speed_ms - 3.5) / 9 ≤ 1 := by
    have : w.wind_speed_ms < 12.5 := by simpa [RATED_SPEED] using h2
    rw [div_le_one (by norm_num : (0:ℚ) < 9)]
    linarith
  have hmono : ∀ s t : ℚ, CUT_IN_SPEED ≤ s → s < t → t < RATED_SPEED →
      estimateCapacityFactor s < estimateCapacityFactor t := by
    intro s t hs hst ht
    have hs2 : ¬ s < CUT_IN_SPEED := not_lt.mpr hs
    have hs3 : ¬ s ≥ RATED_SPEED := not_le.mpr (hst.trans ht)
    have ht2 : ¬ t < CUT_IN_SPEED := not_lt.mpr (hs.trans hst.le)
    have ht3 : ¬ t ≥ RATED_SPEED := not_le.mpr ht
    unfold estimateCapacityFactor
    rw [if_neg hs2, if_neg hs3, if_neg ht2, if_neg ht3]
    have hden : (0 : ℚ) < RATED_SPEED - CUT_IN_SPEED := by
      norm_num [CUT_IN_SPEED, RATED_SPEED]
    have hb0 : (0 : ℚ) ≤ (s - CUT_IN_SPEED) / (RATED_SPEED - CUT_IN_SPEED) :=
      div_nonneg (by linarith) hden.le
    have hblt : (s - CUT_IN_SPEED) / (RATED_SPEED - CUT_IN_SPEED)
        < (t - CUT_IN_SPEED) / (RATED_SPEED - CUT_IN_SPEED) := by
      apply div_lt_div_of_pos_right _ hden
      linarith
    exact pow_lt_pow_left₀ hblt hb0 (by norm_num)
  have hzero : estimateCapacityFactor CUT_IN_SPEED = 0 := by
    norm_num [estimateCapacityFactor, CUT_IN_SPEED, RATED_SPEED]
  refine ⟨?_, ?_, ?_, rfl, ?_, ?_, ?_, hmono, hzero⟩ <;>
  · unfold analyzeCurrentConditions
    simp only [if_neg hns, if_neg hni, if_pos h2]
    split_ifs <;>
      simp_all [subOptimalIssue, icingIssue] <;>
      first
      | exact pow_nonneg hbase0 3
      | exact pow_le_one₀ hbase0 hbase1

/-- Witness for C5 at wind speed 8 m/s. -/
theorem c5_sub_optimal_band_witness :
    (CUT_IN_SPEED ≤ (8 : ℚ) ∧ (8 : ℚ) < RATED_SPEED ∧ (8 : ℚ) < CUT_OUT_SPEED) ∧
    ((analyzeCurrentConditions ⟨0, 8, 8, 10, 50⟩).status = "sub_optimal" ∧
     (analyzeCurrentConditions ⟨0, 8, 8, 10, 50⟩).color = "yellow" ∧
     (analyzeCurrentConditions ⟨0, 8, 8, 10, 50⟩).issues.head? =
       some (subOptimalIssue 8 ((((8 : ℚ) - 3.5) / 9) ^ 3)) ∧
     (subOptimalIssue 8 ((((8 : ℚ) - 3.5) / 9) ^ 3)).severity = "low" ∧
     (analyzeCurrentConditions ⟨0, 8, 8, 10, 50⟩).capacity_factor = (((8 : ℚ) - 3.5) / 9) ^ 3 ∧
     0 ≤ (analyzeCurrentConditions ⟨0, 8, 8, 10, 50⟩).capacity_factor ∧
     (analyzeCurrentConditions ⟨0, 8, 8, 10, 50⟩).capacity_factor ≤ 1 ∧
     (∀ s t : ℚ, CUT_IN_SPEED ≤ s → s < t → t < RATED_SPEED →
       estimateCapacityFactor s < estimateCapacityFactor t) ∧
     estimateCapacityFactor CUT_IN_SPEED = 0) :=
  ⟨by norm_num [CUT_IN_SPEED, RATED_SPEED, CUT_OUT_SPEED],
   c5_sub_optimal_band ⟨0, 8, 8, 10, 50⟩
     (by norm_num [CUT_IN_SPEED]) (by norm_num [RATED_SPEED]) (by norm_num [CUT_OUT_SPEED])⟩

/-- **C7.** On fewer than 9 grid points, `detect_pressure_systems`
returns the empty list (a hard floor, not an error). -/
theorem c7_small_grid_empty (grid : List GridPoint) (h : grid.length < 9) :
    detectPressureSystems grid = [] := by
  unfold detectPressureSystems
  rw [if_pos h]

/-- A grid point carrying only latitude, longitude and pressure
(temperature 10 °C, calm defaults elsewhere), used by concrete
pressure-system examples. -/
def gpP (lat lon pressure : ℚ) : GridPoint :=
  ⟨lat, lon, 10, pressure, 0, 5, 180, 0⟩

/-- An 8-point grid whose first point is a clear local pressure maximum
above 1015 hPa. -/
def smallGrid8 : List GridPoint :=
  [gpP 1 1 1020, gpP 0 0 1000, gpP 0 1 1001, gpP 0 2 1002,
   gpP 1 0 1003, gpP 1 2 1004, gpP 2 0 1005, gpP 2 1 1006]

/-- Witness for C7: an 8-point grid that does contain a clear local
pressure extremum (its first point would be classified `high`), yet
`detect_pressure_systems` returns `[]`. -/
theorem c7_small_grid_empty_witness :
    smallGrid8.length < 9 ∧
    classifyPoint smallGrid8 (gpP 1 1 1020) = [⟨"high", 1, 1, 1020⟩] ∧
    detectPressureSystems smallGrid8 = [] := by
  refine ⟨by norm_num [smallGrid8], ?_, c7_small_grid_empty smallGrid8 (by norm_num [smallGrid8])⟩
  norm_num [classifyPoint, nearbyPoints, smallGrid8, gpP, List.filter, List.all]
  exact List.cons_ne_nil _ _

/-- The icing test of the classifier, as a reusable abbreviation. -/
def icingConditions (w : Weather) : Prop :=
  w.temperature_c ≤ ICING_TEMP ∧ w.humidity_pct ≥ ICING_HUMIDITY

instance (w : Weather) : Decidable (icingConditions w) := by
  unfold icingConditions; infer_instance

/-- Branch equation: the cut-out branch (color `red`, never escalated
by icing since `red ≠ green`). -/
theorem classify_eq_cutout (w : Weather)
    (h : w.wind_gust_ms ≥ CUT_OUT_SPEED ∨ w.wind_speed_ms ≥ CUT_OUT_SPEED) :
    analyzeCurrentConditions w =
      { timestamp := w.timestamp, operational := false, capacity_factor := 0.0,
        status := "shutdown", color := "red",
        issues := cutOutIssue w.wind_speed_ms ::
          (if icingConditions w then [icingIssue w.temperature_c w.humidity_pct] else []) } := by
  unfold analyzeCurrentConditions icingConditions
  simp only [if_pos h]
  split_ifs <;> simp_all

/-- Branch equation: the idle branch (color `yellow`, never escalated
by icing since `yellow ≠ green`). -/
theorem classify_eq_idle (w : Weather)
    (h1 : ¬(w.wind_gust_ms ≥ CUT_OUT_SPEED ∨ w.wind_speed_ms ≥ CUT_OUT_SPEED))
    (h2 : w.wind_speed_ms < CUT_IN_SPEED) :
    analyzeCurrentConditions w =
      { timestamp := w.timestamp, operational := true, capacity_factor := 0.0,
        status := "idle", color := "yellow",
        issues := cutInIssue w.wind_speed_ms ::
          (if icingConditions w then [icingIssue w.temperature_c w.humidity_pct] else []) } := by
  unfold analyzeCurrentConditions icingConditions
  simp only [if_neg h1, if_pos h2]
  split_ifs <;> simp_all

/-- Branch equation: the sub-optimal branch (color `yellow`, never
escalated by icing since `yellow ≠ green`). -/
theorem classify_eq_subopt (w : Weather)
    (h1 : ¬(w.wind_gust_ms ≥ CUT_OUT_SPEED ∨ w.wind_speed_ms ≥ CUT_OUT_SPEED))
    (h2 : ¬(w.wind_speed_ms < CUT_IN_SPEED)) (h3 : w.wind_speed_ms < RATED_SPEED) :
    analyzeCurrentConditions w =
      { timestamp := w.timestamp, operational := true,
        capacity_factor := estimateCapacityFactor w.wind_speed_ms,
        status := "sub_optimal", color := "yellow",
        issues := subOptimalIssue w.wind_speed_ms (estimateCapacityFactor w.wind_speed_ms) ::
          (if icingConditions w then [icingIssue w.temperature_c w.humidity_pct] else []) } := by
  unfold analyzeCurrentConditions icingConditions
  simp only [if_neg h1, if_neg h2, if_pos h3]
  split_ifs <;> simp_all

/-- Branch equation: no wind branch fires (speed at or above rated and
below cut-out); the color is still `green`, so icing, when present,
escalates to `orange`/`icing_risk`. -/
theorem classify_eq_rated (w : Weather)
    (h1 : ¬(w.wind_gust_ms ≥ CUT_OUT_SPEED ∨ w.wind_speed_ms ≥ CUT_OUT_SPEED))
    (h2 : ¬(w.wind_speed_ms < CUT_IN_SPEED)) (h3 : ¬(w.wind_speed_ms < RATED_SPEED)) :
    analyzeCurrentConditions w =
      (if icingConditions w then
        { timestamp := w.timestamp, operational := true, capacity_factor := 1.0,
          status := "icing_risk", color := "orange",
          issues := [icingIssue w.temperature_c w.humidity_pct] }
       else
        { timestamp := w.timestamp, operational := true, capacity_factor := 1.0,
          status := "normal", color := "green", issues := [] }) := by
  unfold analyzeCurrentConditions icingConditions
  simp only [if_neg h1, if_neg h2, if_neg h3]
  split_ifs <;> simp

/-- **C1, counterexample.** At wind speed exactly 3.5 m/s (gust 3.5,
below cut-out), temperature −1 °C, humidity 85 %, the classifier does
return the sub-optimal band with capacity factor 0 and both a
`sub_optimal` and an `icing` issue — but the color stays `yellow` and
the status stays `sub_optimal`: the icing check escalates only from
`green`, so the claimed `orange`/`icing_risk` escalation does not
happen. -/
theorem c1_icing_counterexample :
    (analyzeCurrentConditions ⟨0, 3.5, 3.5, -1, 85⟩).capacity_factor = 0 ∧
    (analyzeCurrentConditions ⟨0, 3.5, 3.5, -1, 85⟩).issues.map Issue.type
      = ["sub_optimal", "icing"] ∧
    (analyzeCurrentConditions ⟨0, 3.5, 3.5, -1, 85⟩).color = "yellow" ∧
    (analyzeCurrentConditions ⟨0, 3.5, 3.5, -1, 85⟩).status = "sub_optimal" ∧
    ¬((analyzeCurrentConditions ⟨0, 3.5, 3.5, -1, 85⟩).color = "orange" ∨
      (analyzeCurrentConditions ⟨0, 3.5, 3.5, -1, 85⟩).status = "icing_risk") := by
  rw [classify_eq_subopt ⟨0, 3.5, 3.5, -1, 85⟩
    (by push_neg; constructor <;> norm_num [CUT_OUT_SPEED])
    (by norm_num [CUT_IN_SPEED]) (by norm_num [RATED_SPEED])]
  rw [if_pos (by constructor <;> norm_num [icingConditions, ICING_TEMP, ICING_HUMIDITY])]
  norm_num [estimateCapacityFactor, subOptimalIssue, icingIssue,
    CUT_IN_SPEED, RATED_SPEED]
  exact ⟨by simp, by simp⟩

/-- **C1, amended.** Whenever temperature ≤ 0 °C and humidity ≥ 80 %,
an `icing` issue (severity `medium`) is appended as the last issue; the
escalation to `orange`/`icing_risk` happens exactly when no wind branch
fired at all (speed ≥ rated and below cut-out, gust below cut-out, so
the color was still `green`) — a `yellow` band (idle or sub-optimal)
blocks the escalation just as `red` does, and `red`/`shutdown` is never
overridden. -/
theorem c1_amended_icing (w : Weather)
    (h1 : w.temperature_c ≤ ICING_TEMP) (h2 : w.humidity_pct ≥ ICING_HUMIDITY) :
    (analyzeCurrentConditions w).issues.getLast?
      = some (icingIssue w.temperature_c w.humidity_pct) ∧
    (icingIssue w.temperature_c w.humidity_pct).severity = "medium" ∧
    ((analyzeCurrentConditions w).color = "orange" ∧
        (analyzeCurrentConditions w).status = "icing_risk" ↔
      ¬(w.wind_gust_ms ≥ CUT_OUT_SPEED ∨ w.wind_speed_ms ≥ CUT_OUT_SPEED) ∧
        w.wind_speed_ms ≥ RATED_SPEED) ∧
    ((w.wind_gust_ms ≥ CUT_OUT_SPEED ∨ w.wind_speed_ms ≥ CUT_OUT_SPEED) →
      (analyzeCurrentConditions w).color = "red" ∧
      (analyzeCurrentConditions w).status = "shutdown") := by
  have hic : icingConditions w := ⟨h1, h2⟩
  have hcir : CUT_IN_SPEED < RATED_SPEED := by norm_num [CUT_IN_SPEED, RATED_SPEED]
  by_cases hco : w.wind_gust_ms ≥ CUT_OUT_SPEED ∨ w.wind_speed_ms ≥ CUT_OUT_SPEED
  · rw [classify_eq_cutout w hco]
    rw [if_pos hic]
    refine ⟨by simp, rfl, ?_, fun _ => ⟨rfl, rfl⟩⟩
    exact iff_of_false (by simp) (by simp [hco])
  · by_cases hci : w.wind_speed_ms < CUT_IN_SPEED
    · rw [classify_eq_idle w hco hci, if_pos hic]
      refine ⟨by simp, rfl, ?_, fun h => absurd h hco⟩
      refine iff_of_false (by simp) ?_
      rintro ⟨-, hge⟩
      have : RATED_SPEED ≤ w.wind_speed_ms := hge
      linarith
    · by_cases hso : w.wind_speed_ms < RATED_SPEED
      · rw [classify_eq_subopt w hco hci hso, if_pos hic]
        refine ⟨by simp, rfl, ?_, fun h => absurd h hco⟩
        refine iff_of_false (by simp) ?_
        rintro ⟨-, hge⟩
        have : RATED_SPEED ≤ w.wind_speed_ms := hge
        linarith
      · rw [classify_eq_rated w hco hci hso, if_pos hic]
        refine ⟨by simp, rfl, ?_, fun h => absurd h hco⟩
        exact iff_of_true ⟨rfl, rfl⟩ ⟨hco, not_lt.mp hso⟩

/-- Witness for C1 (amended) at speed 13 m/s, temperature −1 °C,
humidity 85 %: no wind branch fires, so the escalation happens. -/
theorem c1_amended_icing_witness :
    ((-1 : ℚ) ≤ ICING_TEMP ∧ (85 : ℚ) ≥ ICING_HUMIDITY) ∧
    ((analyzeCurrentConditions ⟨0, 13, 13, -1, 85⟩).issues.getLast?
        = some (icingIssue (-1) 85) ∧
     (icingIssue (-1) 85).severity = "medium" ∧
     ((analyzeCurrentConditions ⟨0, 13, 13, -1, 85⟩).color = "orange" ∧
         (analyzeCurrentConditions ⟨0, 13, 13, -1, 85⟩).status = "icing_risk" ↔
       ¬((13 : ℚ) ≥ CUT_OUT_SPEED ∨ (13 : ℚ) ≥ CUT_OUT_SPEED) ∧ (13 : ℚ) ≥ RATED_SPEED) ∧
     (((13 : ℚ) ≥ CUT_OUT_SPEED ∨ (13 : ℚ) ≥ CUT_OUT_SPEED) →
       (analyzeCurrentConditions ⟨0, 13, 13, -1, 85⟩).color = "red" ∧
       (analyzeCurrentConditions ⟨0, 13, 13, -1, 85⟩).status = "shutdown")) :=
  ⟨⟨by norm_num [ICING_TEMP], by norm_num [ICING_HUMIDITY]⟩,
   c1_amended_icing ⟨0, 13, 13, -1, 85⟩
     (by norm_num [ICING_TEMP]) (by norm_num [ICING_HUMIDITY])⟩

/-- The C2 forecast `[ok, bad, bad, ok]` with `ok` = 8 m/s and `bad` =
30 m/s, hourly timestamps 0..3, mild dry air. -/
def c2Forecast : List Weather :=
  [⟨0, 8, 8, 10, 50⟩, ⟨1, 30, 30, 10, 50⟩, ⟨2, 30, 30, 10, 50⟩, ⟨3, 8, 8, 10, 50⟩]

/-- The same forecast with the `ok` hours at 13 m/s, which really do
classify with an empty issue list. -/
def c2ForecastB : List Weather :=
  [⟨0, 13, 13, 10, 50⟩, ⟨1, 30, 30, 10, 50⟩, ⟨2, 30, 30, 10, 50⟩, ⟨3, 13, 13, 10, 50⟩]

/-- **C2, counterexample.** On `[ok, bad, bad, ok]` with `ok` = 8 m/s,
an 8 m/s hour classifies with a non-empty issue list (`sub_optimal`),
so the event opens at the *first* hour (timestamp 0) and never closes:
the single event returned has `start_time = 0` and `end_time = None`,
not `start_time` at the first bad hour, `end_time` at the final ok
hour and `duration_hours = 1.0` as claimed. -/
theorem c2_events_counterexample :
    analyzeForecast c2Forecast 0
      = [⟨"sub_optimal", "low", 0, none, 0, none, "current"⟩] ∧
    ¬(∃ e, analyzeForecast c2Forecast 0 = [e] ∧
        e.start_time = 1 ∧ e.end_time = some 3 ∧ e.duration_hours = some 1) := by
  have hres : analyzeForecast c2Forecast 0
      = [⟨"sub_optimal", "low", 0, none, 0, none, "current"⟩] := by
    norm_num [analyzeForecast, analyzeForecastAux, analyzeCurrentConditions,
      estimateCapacityFactor, openEndedEvent, subOptimalIssue, cutOutIssue,
      c2Forecast, CUT_IN_SPEED, RATED_SPEED, CUT_OUT_SPEED, ICING_TEMP, ICING_HUMIDITY]
  refine ⟨hres, ?_⟩
  rintro ⟨e, he, hstart, -, -⟩
  rw [hres] at he
  obtain rfl : e = ⟨"sub_optimal", "low", 0, none, 0, none, "current"⟩ :=
    (List.cons.injEq _ _ _ _ ▸ he).1.symm
  norm_num at hstart

/-- **C2, amended.** With `ok` = 8 m/s every hour carries an issue, so
exactly one event is returned, opening at the first hour's timestamp
and never closing (`end_time = None`, `duration_hours = None`); with
genuinely issue-free `ok` hours (13 m/s), exactly one event is
returned, starting at the first bad hour's timestamp, ending at the
first subsequent ok hour's timestamp, with
`duration_hours = end − start = 2.0` (two bad hours), not 1.0. -/
theorem c2_events_amended :
    analyzeForecast c2Forecast 0
      = [⟨"sub_optimal", "low", 0, none, 0, none, "current"⟩] ∧
    analyzeForecast c2ForecastB 0
      = [⟨"cut_out", "critical", 1, some 3, 1, some 2, "upcoming"⟩] ∧
    ((3 : ℚ) - 1) = 2 := by
  refine ⟨?_, ?_, by norm_num⟩ <;>
    norm_num [analyzeForecast, analyzeForecastAux, analyzeCurrentConditions,
      estimateCapacityFactor, openEndedEvent, closedEvent, subOptimalIssue, cutOutIssue,
      c2Forecast, c2ForecastB, CUT_IN_SPEED, RATED_SPEED, CUT_OUT_SPEED,
      ICING_TEMP, ICING_HUMIDITY]

/-- **C10.** The classifier's issue list always has one of the shapes
`[]`, `[wind-band]`, `[icing]` or `[wind-band, icing]` — so it holds at
most one wind-band issue (`cut_out`, `cut_in` and `sub_optimal` being
mutually exclusive), first when present, at most one icing issue, last
when present, and has length at most 2; moreover the list is empty iff
the status is `normal`, which holds iff the color is `green`. -/
theorem c10_issue_list_shape (w : Weather) :
    ((analyzeCurrentConditions w).issues = [] ∨
     (∃ i, (analyzeCurrentConditions w).issues = [i] ∧
        (isWindBandIssue i = true ∨ isIcingIssue i = true)) ∨
     (∃ i j, (analyzeCurrentConditions w).issues = [i, j] ∧
        isWindBandIssue i = true ∧ isIcingIssue j = true)) ∧
    (analyzeCurrentConditions w).issues.length ≤ 2 ∧
    (analyzeCurrentConditions w).issues.countP isWindBandIssue ≤ 1 ∧
    (analyzeCurrentConditions w).issues.countP isIcingIssue ≤ 1 ∧
    ((analyzeCurrentConditions w).issues = [] ↔ (analyzeCurrentConditions w).status = "normal") ∧
    ((analyzeCurrentConditions w).status = "normal" ↔
      (analyzeCurrentConditions w).color = "green") := by
  unfold analyzeCurrentConditions
  split_ifs <;>
    simp [cutOutIssue, cutInIssue, subOptimalIssue, icingIssue,
      isWindBandIssue, isIcingIssue, List.countP, List.countP.go] <;>
    exact ⟨_, _, ⟨rfl, rfl⟩, by simp, rfl⟩

/-- `{'type': 'high', ...}` dict for a point, as appended by
`detect_pressure_systems`. -/
def highSystem (p : GridPoint) : PressureSystem :=
  ⟨"high", p.lat, p.lon, p.pressure⟩

/-- `{'type': 'low', ...}` dict for a point. -/
def lowSystem (p : GridPoint) : PressureSystem :=
  ⟨"low", p.lat, p.lon, p.pressure⟩

/-- Soundness of the per-point classification: anything it emits is the
point's own `high` or `low` record, with the corresponding guard. -/
theorem mem_classifyPoint (grid : List GridPoint) (q : GridPoint) (s : PressureSystem)
    (hs : s ∈ classifyPoint grid q) :
    (s = highSystem q ∧ nearbyPoints grid q ≠ [] ∧
      (∀ n ∈ nearbyPoints grid q, n.pressure < q.pressure) ∧ 1015 < q.pressure) ∨
    (s = lowSystem q ∧ nearbyPoints grid q ≠ [] ∧
      (∀ n ∈ nearbyPoints grid q, q.pressure < n.pressure) ∧ q.pressure < 1010) := by
  unfold classifyPoint at hs
  split_ifs at hs with h1 h2 h3 <;>
    simp_all [highSystem, lowSystem, List.all_eq_true]
  exfalso
  linarith

/-- Completeness for `high`: a point that strictly dominates its
nonempty neighbourhood and exceeds 1015 hPa is classified as exactly
its `high` record. -/
theorem classifyPoint_eq_high (grid : List GridPoint) (q : GridPoint)
    (h1 : nearbyPoints grid q ≠ [])
    (h2 : ∀ n ∈ nearbyPoints grid q, n.pressure < q.pressure)
    (h3 : 1015 < q.pressure) :
    classifyPoint grid q = [highSystem q] := by
  unfold classifyPoint
  rw [if_neg h1]
  rw [if_pos (by simp only [List.all_eq_true, decide_eq_true_eq]; exact h2)]
  rw [if_pos h3]
  rfl

/-- Completeness for `low`: a point strictly dominated by its nonempty
neighbourhood and below 1010 hPa is classified as exactly its `low`
record. -/
theorem classifyPoint_eq_low (grid : List GridPoint) (q : GridPoint)
    (h1 : nearbyPoints grid q ≠ [])
    (h2 : ∀ n ∈ nearbyPoints grid q, q.pressure < n.pressure)
    (h3 : q.pressure < 1010) :
    classifyPoint grid q = [lowSystem q] := by
  obtain ⟨n0, hn0⟩ := List.exists_mem_of_ne_nil _ h1
  unfold classifyPoint
  rw [if_neg h1]
  rw [if_neg (by
    simp only [List.all_eq_true, decide_eq_true_eq, not_forall]
    exact ⟨n0, hn0, not_lt.mpr (h2 n0 hn0).le⟩)]
  rw [if_pos (by simp only [List.all_eq_true, decide_eq_true_eq]; exact h2)]
  rw [if_pos h3]
  rfl

/-- Membership in `detect_pressure_systems` unfolds to membership in
some point's classification (once the 9-point floor is met). -/
theorem mem_detectPressureSystems (grid : List GridPoint) (h9 : 9 ≤ grid.length)
    (s : PressureSystem) :
    s ∈ detectPressureSystems grid ↔ ∃ q ∈ grid, s ∈ classifyPoint grid q := by
  unfold detectPressureSystems
  rw [if_neg (not_lt.mpr h9)]
  simp [List.mem_flatten]

/-- **C6.** On a grid of at least 9 points, a point of the grid is
reported as a `high` exactly when its neighbourhood (other points
within 2° of latitude and 2° of longitude) is nonempty, its pressure
strictly exceeds every neighbour's, and exceeds 1015 hPa;
symmetrically for `low` with strict minority and 1010 hPa; a point
with no neighbours contributes nothing, and a point whose pressure
ties with some neighbour's is reported as neither. -/
theorem c6_pressure_system_membership (grid : List GridPoint) (p : GridPoint)
    (h9 : 9 ≤ grid.length) (hp : p ∈ grid) :
    (highSystem p ∈ detectPressureSystems grid ↔
      (nearbyPoints grid p ≠ [] ∧ (∀ n ∈ nearbyPoints grid p, n.pressure < p.pressure) ∧
        1015 < p.pressure)) ∧
    (lowSystem p ∈ detectPressureSystems grid ↔
      (nearbyPoints grid p ≠ [] ∧ (∀ n ∈ nearbyPoints grid p, p.pressure < n.pressure) ∧
        p.pressure < 1010)) ∧
    (nearbyPoints grid p = [] → classifyPoint grid p = []) ∧
    ((∃ n ∈ nearbyPoints grid p, n.pressure = p.pressure) → classifyPoint grid p = []) := by
  refine ⟨⟨?_, ?_⟩, ⟨?_, ?_⟩, ?_, ?_⟩
  · intro hmem
    obtain ⟨q, hq, hsq⟩ := (mem_detectPressureSystems grid h9 _).mp hmem
    rcases mem_classifyPoint grid q _ hsq with ⟨heq, hne, hall, hgt⟩ | ⟨heq, -, -, -⟩
    · have hlat : p.lat = q.lat := by
        simpa [highSystem] using congrArg PressureSystem.lat heq
      have hlon : p.lon = q.lon := by
        simpa [highSystem] using congrArg PressureSystem.lon heq
      have hpres : p.pressure = q.pressure := by
        simpa [highSystem] using congrArg PressureSystem.pressure heq
      by_cases hpq : p = q
      · subst hpq
        exact ⟨hne, hall, hgt⟩
      · exfalso
        have hmemnb : p ∈ nearbyPoints grid q := by
          unfold nearbyPoints
          rw [List.mem_filter]
          refine ⟨hp, ?_⟩
          simp only [decide_eq_true_eq]
          refine ⟨?_, ?_, hpq⟩
          · rw [hlat]; simp
          · rw [hlon]; simp
        exact absurd (hall p hmemnb) (not_lt.mpr hpres.ge)
    · exact absurd (congrArg PressureSystem.type heq) (by simp [highSystem, lowSystem])
  · rintro ⟨hne, hall, hgt⟩
    refine (mem_detectPressureSystems grid h9 _).mpr ⟨p, hp, ?_⟩
    rw [classifyPoint_eq_high grid p hne hall hgt]
    simp
  · intro hmem
    obtain ⟨q, hq, hsq⟩ := (mem_detectPressureSystems grid h9 _).mp hmem
    rcases mem_classifyPoint grid q _ hsq with ⟨heq, -, -, -⟩ | ⟨heq, hne, hall, hlt⟩
    · exact absurd (congrArg PressureSystem.type heq) (by simp [highSystem, lowSystem])
    · have hlat : p.lat = q.lat := by
        simpa [lowSystem] using congrArg PressureSystem.lat heq
      have hlon : p.lon = q.lon := by
        simpa [lowSystem] using congrArg PressureSystem.lon heq
      have hpres : p.pressure = q.pressure := by
        simpa [lowSystem] using congrArg PressureSystem.pressure heq
      by_cases hpq : p = q
      · subst hpq
        exact ⟨hne, hall, hlt⟩
      · exfalso
        have hmemnb : p ∈ nearbyPoints grid q := by
          unfold nearbyPoints
          rw [List.mem_filter]
          refine ⟨hp, ?_⟩
          simp only [decide_eq_true_eq]
          refine ⟨?_, ?_, hpq⟩
          · rw [hlat]; simp
          · rw [hlon]; simp
        exact absurd (hall p hmemnb) (not_lt.mpr hpres.le)
  · rintro ⟨hne, hall, hlt⟩
    refine (mem_detectPressureSystems grid h9 _).mpr ⟨p, hp, ?_⟩
    rw [classifyPoint_eq_low grid p hne hall hlt]
    simp
  · intro hempty
    unfold classifyPoint
    rw [if_pos hempty]
  · rintro ⟨n, hn, hpres⟩
    have hne : nearbyPoints grid p ≠ [] := List.ne_nil_of_mem hn
    unfold classifyPoint
    rw [if_neg hne]
    rw [if_neg (by
      simp only [List.all_eq_true, decide_eq_true_eq, not_forall]
      exact ⟨n, hn, not_lt.mpr hpres.ge⟩)]
    rw [if_neg (by
      simp only [List.all_eq_true, decide_eq_true_eq, not_forall]
      exact ⟨n, hn, not_lt.mpr hpres.le⟩)]

instance : IsTotal GridPoint (fun a b => a.lat ≤ b.lat) :=
  ⟨fun a b => le_total a.lat b.lat⟩

instance : IsTrans GridPoint (fun a b => a.lat ≤ b.lat) :=
  ⟨fun _ _ _ h1 h2 => le_trans h1 h2⟩

/-- The latitude sort really sorts by latitude ascending. -/
theorem sortByLat_sorted (g : List GridPoint) :
    List.Sorted (fun a b : GridPoint => a.lat ≤ b.lat) (sortByLat g) :=
  List.sorted_insertionSort _ g

/-- The latitude sort is a permutation of the input grid. -/
theorem sortByLat_perm (g : List GridPoint) : (sortByLat g).Perm g :=
  List.perm_insertionSort _ g

/-- The front scan processes exactly the adjacent pairs of its input
list, in order. -/
theorem frontScan_eq_pairs : ∀ l : List GridPoint,
    frontScan l = ((l.zip l.tail).map (fun pr => frontPair pr.1 pr.2)).flatten
  | [] => rfl
  | [_] => rfl
  | p1 :: p2 :: rest => by
    rw [show frontScan (p1 :: p2 :: rest) = frontPair p1 p2 ++ frontScan (p2 :: rest) from rfl,
      frontScan_eq_pairs (p2 :: rest)]
    simp

/-- Bridge between the source's floating-point gradient test
`temp_diff / sqrt(dlat² + dlon²) > 1.5` and the exact rational test
`(3/2)² ⬝ distSq < temp_diff²` used in `frontPair`. -/
theorem gradient_cast_iff (q td : ℚ) (hq : 0 < q) (htd : 0 ≤ td) :
    ((1.5 : ℝ) < (td : ℝ) / Real.sqrt (q : ℝ)) ↔ ((3/2 : ℚ) ^ 2 * q < td ^ 2) := by
  have hqR : (0 : ℝ) < (q : ℝ) := by exact_mod_cast hq
  have hx : 0 < Real.sqrt (q : ℝ) := Real.sqrt_pos.mpr hqR
  have h15 : (0 : ℝ) ≤ 1.5 * Real.sqrt (q : ℝ) := by positivity
  have htdR : (0 : ℝ) ≤ (td : ℝ) := by exact_mod_cast htd
  rw [lt_div_iff₀ hx, ← pow_lt_pow_iff_left₀ h15 htdR (two_ne_zero), mul_pow,
    Real.sq_sqrt hqR.le]
  constructor
  · intro h
    have h2 : ((3/2 : ℚ) : ℝ) ^ 2 * (q : ℝ) < (td : ℝ) ^ 2 := by
      calc ((3/2 : ℚ) : ℝ) ^ 2 * (q : ℝ) = (1.5 : ℝ) ^ 2 * (q : ℝ) := by norm_num
      _ < (td : ℝ) ^ 2 := h
    exact_mod_cast h2
  · intro h
    have h2 : ((3/2 : ℚ) : ℝ) ^ 2 * (q : ℝ) < (td : ℝ) ^ 2 := by exact_mod_cast h
    calc (1.5 : ℝ) ^ 2 * (q : ℝ) = ((3/2 : ℚ) : ℝ) ^ 2 * (q : ℝ) := by norm_num
    _ < (td : ℝ) ^ 2 := h2

/-- Two grid points 1° apart in latitude with a 2 °C temperature
difference (gradient 2.0), listed in descending latitude to exercise
the sort. -/
def frontGridA : List GridPoint :=
  [⟨51, 0, 8, 1010, 0, 5, 180, 0⟩, ⟨50, 0, 10, 1010, 0, 5, 180, 0⟩]

/-- Two grid points 1° apart in latitude with a 1 °C temperature
difference (gradient 1.0). -/
def frontGridB : List GridPoint :=
  [⟨50, 0, 10, 1010, 0, 5, 180, 0⟩, ⟨51, 0, 9, 1010, 0, 5, 180, 0⟩]

/-- **C8.** `detect_fronts` scans adjacent pairs of the grid sorted by
latitude ascending (a permutation of the input); a pair at Euclidean
degree-distance 0 is skipped, and otherwise exactly one front is
emitted iff `|Δtemp| / distance > 1.5`, at the pair's midpoint, `cold`
(blue) when the higher-latitude point is colder, `warm` (red)
otherwise.  Concretely, 1° apart with 2 °C difference produces a cold
front at the midpoint, and 1° apart with 1 °C difference produces
nothing. -/
theorem c8_detect_fronts :
    (∀ g : List GridPoint,
      detectFronts g = frontScan (sortByLat g) ∧
      List.Sorted (fun a b : GridPoint => a.lat ≤ b.lat) (sortByLat g) ∧
      (sortByLat g).Perm g ∧
      frontScan (sortByLat g)
        = (((sortByLat g).zip (sortByLat g).tail).map
            (fun pr => frontPair pr.1 pr.2)).flatten) ∧
    (∀ p1 p2 : GridPoint,
      ((p2.lat - p1.lat) ^ 2 + (p2.lon - p1.lon) ^ 2 = 0 → frontPair p1 p2 = []) ∧
      ((p2.lat - p1.lat) ^ 2 + (p2.lon - p1.lon) ^ 2 ≠ 0 →
        (((1.5 : ℝ) < ((|p2.temperature - p1.temperature| : ℚ) : ℝ) /
            Real.sqrt (((p2.lat - p1.lat) ^ 2 + (p2.lon - p1.lon) ^ 2 : ℚ) : ℝ) →
          frontPair p1 p2 =
            [⟨(if p2.temperature < p1.temperature then "cold" else "warm"),
              (p1.lat + p2.lat) / 2, (p1.lon + p2.lon) / 2,
              (if p2.temperature < p1.temperature then "#0000FF" else "#FF0000"),
              |p2.temperature - p1.temperature|⟩]) ∧
        (¬((1.5 : ℝ) < ((|p2.temperature - p1.temperature| : ℚ) : ℝ) /
            Real.sqrt (((p2.lat - p1.lat) ^ 2 + (p2.lon - p1.lon) ^ 2 : ℚ) : ℝ)) →
          frontPair p1 p2 = [])))) ∧
    detectFronts frontGridA = [⟨"cold", 101/2, 0, "#0000FF", 2⟩] ∧
    detectFronts frontGridB = [] := by
  refine ⟨?_, ?_, ?_, ?_⟩
  · intro g
    exact ⟨rfl, sortByLat_sorted g, sortByLat_perm g, frontScan_eq_pairs (sortByLat g)⟩
  · intro p1 p2
    refine ⟨?_, ?_⟩
    · intro h0
      unfold frontPair
      rw [if_neg (by rw [h0]; rintro ⟨h, -⟩; exact lt_irrefl 0 h)]
    · intro hne
      have hpos : 0 < (p2.lat - p1.lat) ^ 2 + (p2.lon - p1.lon) ^ 2 :=
        lt_of_le_of_ne (by positivity) (Ne.symm hne)
      have hiff := gradient_cast_iff
        ((p2.lat - p1.lat) ^ 2 + (p2.lon - p1.lon) ^ 2)
        (|p2.temperature - p1.temperature|) hpos (abs_nonneg _)
      refine ⟨?_, ?_⟩
      · intro hgrad
        have hsq := hiff.mp hgrad
        unfold frontPair
        rw [if_pos ⟨hpos, hsq⟩]
        split_ifs <;> rfl
      · intro hngrad
        have hnsq : ¬((3/2 : ℚ) ^ 2 * ((p2.lat - p1.lat) ^ 2 + (p2.lon - p1.lon) ^ 2)
            < |p2.temperature - p1.temperature| ^ 2) :=
          fun hc => hngrad (hiff.mpr hc)
        unfold frontPair
        rw [if_neg (by rintro ⟨-, hsq⟩; exact hnsq hsq)]
  · norm_num [detectFronts, sortByLat, List.insertionSort, List.orderedInsert,
      frontScan, frontPair, frontGridA]
  · norm_num [detectFronts, sortByLat, List.insertionSort, List.orderedInsert,
      frontScan, frontPair, frontGridB]

/-- Witness for C8: the pair behaviour at concrete points — the sorted
pair of `frontGridA` (distance 1, 2 °C difference, gradient 2 > 1.5)
emits the cold front; a pair of coincident points (distance 0) is
skipped. -/
theorem c8_detect_fronts_witness :
    frontPair ⟨50, 0, 10, 1010, 0, 5, 180, 0⟩ ⟨51, 0, 8, 1010, 0, 5, 180, 0⟩
      = [⟨"cold", 101/2, 0, "#0000FF", 2⟩] ∧
    frontPair ⟨50, 0, 10, 1010, 0, 5, 180, 0⟩ ⟨50, 0, 10, 1010, 0, 5, 180, 0⟩ = [] := by
  constructor
  · have h := ((c8_detect_fronts.2.1
      ⟨50, 0, 10, 1010, 0, 5, 180, 0⟩ ⟨51, 0, 8, 1010, 0, 5, 180, 0⟩).2
        (by norm_num)).1 (by norm_num [Real.sqrt_one])
    rw [h]
    norm_num
  · exact (c8_detect_fronts.2.1
      ⟨50, 0, 10, 1010, 0, 5, 180, 0⟩ ⟨50, 0, 10, 1010, 0, 5, 180, 0⟩).1 (by norm_num)

/-- The critical-scan test of the aggregator (`severity == 'critical'
and eta_hours < 24`). -/
def critMatch (e : Event) : Bool :=
  decide (e.severity = "critical" ∧ e.eta_hours < 24)

/-- The medium-scan test of the aggregator (`severity == 'medium'
and eta_hours < 12`). -/
def medMatch (e : Event) : Bool :=
  decide (e.severity = "medium" ∧ e.eta_hours < 12)

/-- Modelled from the spec's words (§4.3 Status Aggregator), for
comparison against the source's scan loop: the first critical event
within 24 h wins outright (`red`); otherwise, if the starting color is
not already `red`, the *last* medium event within 12 h wins
(`orange`); otherwise the starting color and issue stand. -/
def specAggregate (c : String) (i : Option Issue) (events : List Event) :
    String × Option Issue :=
  match events.find? critMatch with
  | some e => ("red", some (synthIssue e))
  | none =>
    if c = "red" then (c, i)
    else
      match (events.filter medMatch).getLast? with
      | some e => ("orange", some (synthIssue e))
      | none => (c, i)

/-- If a list has a last element, consing in front keeps it. -/
theorem getLast?_cons_of_some {α : Type} (a : α) (l : List α) (m : α)
    (h : l.getLast? = some m) : (a :: l).getLast? = some m := by
  cases l with
  | nil => simp at h
  | cons b t => rw [List.getLast?_cons_cons, ← h]

/-- The aggregator loop computes exactly the spec-side aggregation of
its starting priority color and issue, leaving the other fields of the
accumulator untouched. -/
theorem getOverallStatusAux_eq_spec : ∀ (events : List Event) (ov : Overall),
    getOverallStatusAux events ov =
      { ov with
          priority_color := (specAggregate ov.priority_color ov.priority_issue events).1
          priority_issue := (specAggregate ov.priority_color ov.priority_issue events).2 } := by
  intro events
  induction events with
  | nil =>
    intro ov
    simp [getOverallStatusAux, specAggregate]
  | cons e rest ih =>
    intro ov
    by_cases hc : critMatch e = true
    · have hc' : e.severity = "critical" ∧ e.eta_hours < 24 := of_decide_eq_true hc
      simp [getOverallStatusAux, hc', specAggregate, List.find?_cons_of_pos _ hc]
    · have hc' : ¬(e.severity = "critical" ∧ e.eta_hours < 24) := by
        simpa [critMatch] using hc
      have hfind : (e :: rest).find? critMatch = rest.find? critMatch :=
        List.find?_cons_of_neg _ hc
      by_cases hm : medMatch e = true
      · have hm' : e.severity = "medium" ∧ e.eta_hours < 12 := of_decide_eq_true hm
        have hfilter : (e :: rest).filter medMatch = e :: rest.filter medMatch :=
          List.filter_cons_of_pos hm
        have hstep : getOverallStatusAux (e :: rest) ov =
            getOverallStatusAux rest
              (if ov.priority_color ≠ "red" then
                { ov with priority_color := "orange", priority_issue := some (synthIssue e) }
               else ov) := by
          simp [getOverallStatusAux, hc', hm']
        rw [hstep]
        by_cases hred : ov.priority_color = "red"
        · rw [if_neg (by simpa using hred)]
          rw [ih ov]
          cases hfr : rest.find? critMatch with
          | some c => simp [specAggregate, hfind, hfr]
          | none => simp [specAggregate, hfind, hfr, hred]
        · rw [if_pos hred]
          rw [ih _]
          cases hfr : rest.find? critMatch with
          | some c => simp [specAggregate, hfind, hfr]
          | none =>
            cases hgl : (rest.filter medMatch).getLast? with
            | some m =>
              have hgl2 : ((e :: rest).filter medMatch).getLast? = some m := by
                rw [hfilter]
                exact getLast?_cons_of_some _ _ _ hgl
              simp [specAggregate, hfind, hfr, hgl, hgl2, hred]
            | none =>
              have hnil : rest.filter medMatch = [] := List.getLast?_eq_none_iff.mp hgl
              have hgl2 : ((e :: rest).filter medMatch).getLast? = some e := by
                rw [hfilter, hnil, List.getLast?_singleton]
              simp [specAggregate, hfind, hfr, hgl, hgl2, hred]
      · have hm' : ¬(e.severity = "medium" ∧ e.eta_hours < 12) := by
          simpa [medMatch] using hm
        have hfilter : (e :: rest).filter medMatch = rest.filter medMatch :=
          List.filter_cons_of_neg hm
        have hstep : getOverallStatusAux (e :: rest) ov = getOverallStatusAux rest ov := by
          simp [getOverallStatusAux, hc', hm']
        rw [hstep, ih ov]
        simp [specAggregate, hfind, hfilter]

/-- **C3.** The aggregator's result on any current status and event
list: current status and event list are passed through unchanged, and
the priority color/issue follow the scan semantics — the *first*
critical event with `eta_hours < 24` wins with `red` and stops the
scan; failing that, the *last* medium event with `eta_hours < 12` wins
with `orange`, but only when the starting color is not already `red`;
otherwise the current color and first current issue stand. -/
theorem c3_aggregate_scan (cur : CondStatus) (events : List Event) :
    (getOverallStatus cur events).current = cur ∧
    (getOverallStatus cur events).upcoming_events = events ∧
    (getOverallStatus cur events).priority_color
      = (specAggregate cur.color cur.issues.head? events).1 ∧
    (getOverallStatus cur events).priority_issue
      = (specAggregate cur.color cur.issues.head? events).2 := by
  unfold getOverallStatus
  rw [getOverallStatusAux_eq_spec]
  exact ⟨rfl, rfl, rfl, rfl⟩

/-- Ordering/non-overlap relation between two events: the later event
starts strictly later, and if the earlier event is closed its end does
not reach past the later event's start. -/
def EventRel (e1 e2 : Event) : Prop :=
  e1.start_time < e2.start_time ∧ ∀ t, e1.end_time = some t → t ≤ e2.start_time

instance : IsTrans Event EventRel :=
  ⟨fun _ _ _ h1 h2 => ⟨h1.1.trans h2.1, fun t ht => (h1.2 t ht).trans h2.1.le⟩⟩

/-- Every event in the list is closed, with its end strictly after its
start. -/
def ClosedAll (l : List Event) : Prop :=
  ∀ e ∈ l, ∃ t, e.end_time = some t ∧ e.start_time < t

/-- Invariant preservation for the `analyze_forecast` loop: given a
chronologically sorted remaining forecast, an accumulator of closed,
chained events all lying before the remaining hours (and before the
open event's start, when one is open), the loop output is chained,
everything but possibly the final event is closed, and every closed
event ends strictly after it starts. -/
theorem analyzeForecastAux_invariants (now : ℚ) :
    ∀ (rest : List Weather) (acc : List Event) (st : Option OpenEvent),
    List.Pairwise (fun a b : Weather => a.timestamp < b.timestamp) rest →
    ClosedAll acc →
    List.Chain' EventRel acc →
    (∀ e ∈ acc, ∀ w ∈ rest, e.start_time < w.timestamp ∧
        ∀ t, e.end_time = some t → t ≤ w.timestamp) →
    (∀ oe, st = some oe →
      (∀ e ∈ acc, e.start_time < oe.event_start ∧
        ∀ t, e.end_time = some t → t ≤ oe.event_start) ∧
      ∀ w ∈ rest, oe.event_start < w.timestamp) →
    List.Chain' EventRel (analyzeForecastAux now rest acc st) ∧
    (∀ e ∈ (analyzeForecastAux now rest acc st).dropLast, e.end_time ≠ none) ∧
    (∀ e ∈ analyzeForecastAux now rest acc st, ∀ t, e.end_time = some t → e.start_time < t) := by
  intro rest
  induction rest with
  | nil =>
    intro acc st hpw hclosed hchain h4 h5
    cases st with
    | none =>
      refine ⟨hchain, ?_, ?_⟩
      · intro e he
        obtain ⟨t, ht, -⟩ := hclosed e (List.dropLast_subset _ he)
        simp [analyzeForecastAux] at he ⊢
        simp [ht]
      · intro e he t ht
        simp only [analyzeForecastAux] at he ht
        obtain ⟨t0, ht0, hlt⟩ := hclosed e he
        rw [ht] at ht0
        obtain rfl := Option.some.injEq _ _ ▸ ht0
        exact hlt
    | some oe =>
      obtain ⟨hacc, -⟩ := h5 oe rfl
      simp only [analyzeForecastAux]
      refine ⟨?_, ?_, ?_⟩
      · rw [List.chain'_append]
        refine ⟨hchain, List.chain'_singleton _, ?_⟩
        intro x hx y hy
        simp only [List.head?_cons, Option.mem_def, Option.some.injEq] at hy
        subst hy
        have hxmem : x ∈ acc := List.mem_of_mem_getLast? hx
        exact ⟨(hacc x hxmem).1, fun t ht => (hacc x hxmem).2 t ht⟩
      · rw [List.dropLast_concat]
        intro e he
        obtain ⟨t, ht, -⟩ := hclosed e he
        simp [ht]
      · intro e he t ht
        rcases List.mem_append.mp he with hin | hin
        · obtain ⟨t0, ht0, hlt⟩ := hclosed e hin
          rw [ht] at ht0
          obtain rfl := Option.some.injEq _ _ ▸ ht0
          exact hlt
        · simp only [List.mem_singleton] at hin
          subst hin
          simp [openEndedEvent] at ht
  | cons hour rest ih =>
    intro acc st hpw hclosed hchain h4 h5
    obtain ⟨hhead, htail⟩ := List.pairwise_cons.mp hpw
    cases st with
    | none =>
      cases hiss : (analyzeCurrentConditions hour).issues with
      | nil =>
        have hstep : analyzeForecastAux now (hour :: rest) acc none
            = analyzeForecastAux now rest acc none := by
          simp [analyzeForecastAux, hiss]
        rw [hstep]
        refine ih acc none htail hclosed hchain ?_ ?_
        · intro e he w hw
          exact h4 e he w (List.mem_cons_of_mem _ hw)
        · intro oe h
          simp at h
      | cons iss tl =>
        have hstep : analyzeForecastAux now (hour :: rest) acc none
            = analyzeForecastAux now rest acc
                (some ⟨hour.timestamp, iss.type, iss.severity⟩) := by
          simp [analyzeForecastAux, hiss]
        rw [hstep]
        refine ih acc _ htail hclosed hchain ?_ ?_
        · intro e he w hw
          exact h4 e he w (List.mem_cons_of_mem _ hw)
        · intro oe hoe
          obtain rfl := Option.some.injEq _ _ ▸ hoe.symm
          refine ⟨?_, ?_⟩
          · intro e he
            exact h4 e he hour (List.mem_cons_self _ _)
          · intro w hw
            exact hhead w hw
    | some oe =>
      by_cases hiss : (analyzeCurrentConditions hour).issues = []
      · have hstep : analyzeForecastAux now (hour :: rest) acc (some oe)
            = analyzeForecastAux now rest
                (acc ++ [closedEvent now oe hour.timestamp]) none := by
          simp [analyzeForecastAux, hiss]
        rw [hstep]
        obtain ⟨hacc, hfut⟩ := h5 oe rfl
        have hse : oe.event_start < hour.timestamp :=
          hfut hour (List.mem_cons_self _ _)
        refine ih _ none htail ?_ ?_ ?_ ?_
        · intro e he
          rcases List.mem_append.mp he with hin | hin
          · exact hclosed e hin
          · simp only [List.mem_singleton] at hin
            subst hin
            exact ⟨hour.timestamp, rfl, hse⟩
        · rw [List.chain'_append]
          refine ⟨hchain, List.chain'_singleton _, ?_⟩
          intro x hx y hy
          simp only [List.head?_cons, Option.mem_def, Option.some.injEq] at hy
          subst hy
          have hxmem : x ∈ acc := List.mem_of_mem_getLast? hx
          exact ⟨(hacc x hxmem).1, fun t ht => (hacc x hxmem).2 t ht⟩
        · intro e he w hw
          rcases List.mem_append.mp he with hin | hin
          · exact h4 e hin w (List.mem_cons_of_mem _ hw)
          · simp only [List.mem_singleton] at hin
            subst hin
            refine ⟨hfut w (List.mem_cons_of_mem _ hw), ?_⟩
            intro t ht
            simp only [closedEvent, Option.some.injEq] at ht
            subst ht
            exact (hhead w hw).le
        · intro oe' h
          simp at h
      · have hstep : analyzeForecastAux now (hour :: rest) acc (some oe)
            = analyzeForecastAux now rest acc (some oe) := by
          simp [analyzeForecastAux, hiss]
        rw [hstep]
        refine ih acc (some oe) htail hclosed hchain ?_ ?_
        · intro e he w hw
          exact h4 e he w (List.mem_cons_of_mem _ hw)
        · intro oe' hoe'
          obtain rfl := Option.some.injEq _ _ ▸ hoe'.symm
          obtain ⟨hacc, hfut⟩ := h5 oe' rfl
          exact ⟨hacc, fun w hw => hfut w (List.mem_cons_of_mem _ hw)⟩

/-- **C9.** On a forecast with strictly increasing timestamps,
`analyze_forecast` returns events that are pairwise ordered by
`start_time` and non-overlapping (`EventRel`), with every event except
possibly the final one closed, every closed event ending strictly
after it starts, and the empty forecast yielding the empty list. -/
theorem c9_forecast_event_invariants (forecast : List Weather) (now : ℚ)
    (hsorted : List.Pairwise (fun a b : Weather => a.timestamp < b.timestamp) forecast) :
    List.Pairwise EventRel (analyzeForecast forecast now) ∧
    (∀ e ∈ (analyzeForecast forecast now).dropLast, e.end_time ≠ none) ∧
    (∀ e ∈ analyzeForecast forecast now, ∀ t, e.end_time = some t → e.start_time < t) ∧
    analyzeForecast [] now = [] := by
  obtain ⟨hA, hB, hC⟩ := analyzeForecastAux_invariants now forecast [] none hsorted
    (by intro e he; simp at he)
    List.chain'_nil
    (by intro e he; simp at he)
    (by intro oe h; simp at h)
  exact ⟨List.chain'_iff_pairwise.mp hA, hB, hC, rfl⟩

/-- A five-hour forecast exercising two separated impact events:
calm, storm, calm, storm, storm (the final event stays open). -/
def c9Forecast : List Weather :=
  [⟨0, 13, 13, 10, 50⟩, ⟨1, 30, 30, 10, 50⟩, ⟨2, 13, 13, 10, 50⟩,
   ⟨3, 30, 30, 10, 50⟩, ⟨4, 30, 30, 10, 50⟩]

/-- Witness for C9 on a concrete five-hour forecast with two events. -/
theorem c9_forecast_event_invariants_witness :
    List.Pairwise (fun a b : Weather => a.timestamp < b.timestamp) c9Forecast ∧
    (List.Pairwise EventRel (analyzeForecast c9Forecast 0) ∧
     (∀ e ∈ (analyzeForecast c9Forecast 0).dropLast, e.end_time ≠ none) ∧
     (∀ e ∈ analyzeForecast c9Forecast 0, ∀ t, e.end_time = some t → e.start_time < t) ∧
     analyzeForecast [] 0 = []) :=
  ⟨by norm_num [c9Forecast, List.pairwise_cons],
   c9_forecast_event_invariants c9Forecast 0
     (by norm_num [c9Forecast, List.pairwise_cons])⟩

/-- A 3×3 grid whose first point (1, 1) is a clear local pressure
maximum above 1015 hPa. -/
def c6Grid : List GridPoint :=
  [gpP 1 1 1020, gpP 0 0 1000, gpP 0 1 1001, gpP 0 2 1002,
   gpP 1 0 1003, gpP 1 2 1004, gpP 2 0 1005, gpP 2 1 1006, gpP 2 2 1007]

/-- Witness for C6 on a concrete 9-point grid at its central high. -/
theorem c6_pressure_system_membership_witness :
    (9 ≤ c6Grid.length ∧ gpP 1 1 1020 ∈ c6Grid) ∧
    ((highSystem (gpP 1 1 1020) ∈ detectPressureSystems c6Grid ↔
       (nearbyPoints c6Grid (gpP 1 1 1020) ≠ [] ∧
        (∀ n ∈ nearbyPoints c6Grid (gpP 1 1 1020), n.pressure < (gpP 1 1 1020).pressure) ∧
        1015 < (gpP 1 1 1020).pressure)) ∧
     (lowSystem (gpP 1 1 1020) ∈ detectPressureSystems c6Grid ↔
       (nearbyPoints c6Grid (gpP 1 1 1020) ≠ [] ∧
        (∀ n ∈ nearbyPoints c6Grid (gpP 1 1 1020), (gpP 1 1 1020).pressure < n.pressure) ∧
        (gpP 1 1 1020).pressure < 1010)) ∧
     (nearbyPoints c6Grid (gpP 1 1 1020) = [] → classifyPoint c6Grid (gpP 1 1 1020) = []) ∧
     ((∃ n ∈ nearbyPoints c6Grid (gpP 1 1 1020), n.pressure = (gpP 1 1 1020).pressure) →
       classifyPoint c6Grid (gpP 1 1 1020) = [])) :=
  ⟨⟨by norm_num [c6Grid], by simp [c6Grid]⟩,
   c6_pressure_system_membership c6Grid (gpP 1 1 1020)
     (by norm_num [c6Grid]) (by simp [c6Grid])⟩
